import Mathlib

/-!
Shallow embedding of `voice_chat_app.py`, a single-file Streamlit voice
assistant.  The turn orchestration (capture → transcribe → generate →
synthesize → present), the offline keyword-matching response generator, the
two TTS wrappers, the session state and its "Clear All" action are modelled
as pure Lean functions.  External collaborators (microphone + Google speech
recognition, the Gemini API, the TTS engines) are modelled as oracles passed
in explicitly; a Python exception that a component catches is modelled inside
the component, while an exception that escapes a component is modelled as
`Except.error`.  The filesystem of temporary audio files is modelled as the
list of currently existing file paths plus a log of `os.unlink` calls.
-/

namespace VoiceChat

/-- Python `text.lower()` (src line 50), applied character by character. -/
def pyLower (s : String) : String :=
  ⟨s.data.map Char.toLower⟩

/-- Python `pat in s` (substring test), as used on lowered text in
`get_gemini_response` (src lines 51-56). -/
def pyContains (s pat : String) : Bool :=
  decide (pat.data <:+: s.data)

/-- Python `s.startswith(p)` for a single prefix; `startswith` on a tuple in
the source (line 179) is the disjunction of these. -/
def pyStartsWith (s p : String) : Bool :=
  decide (p.data <+: s.data)

/-- The fixed greeting reply of offline mode (src line 44). -/
def helloReply : String := "Hello! How can I help you today?"

/-- The fixed weather-disclaimer reply of offline mode (src line 45). -/
def weatherReply : String :=
  "I don't have access to current weather data, but I hope it's nice where you are!"

/-- The fixed time-disclaimer reply of offline mode (src line 46). -/
def timeReply : String :=
  "I don't have access to real-time data, but you can check your device's clock."

/-- The templated default reply of offline mode (src line 47):
`f"I heard you say: '{text}'. Hello, this is a sample response from Gemini AI placeholder."` -/
def defaultReply (text : String) : String :=
  "I heard you say: '" ++ text ++ "'. Hello, this is a sample response from Gemini AI placeholder."

/-- Offline / demo branch of `get_gemini_response` (src lines 40-58): lower
the input, then an if/elif chain over substring tests. -/
def get_gemini_response_offline (text : String) : String :=
  if pyContains (pyLower text) "hello" || pyContains (pyLower text) "hi" then helloReply
  else if pyContains (pyLower text) "weather" then weatherReply
  else if pyContains (pyLower text) "time" then timeReply
  else defaultReply text

/-- `get_gemini_response(text, api_key, use_api, model_name)` (src lines
37-75).  The live Gemini call is an oracle `live : String → Except String
String`; `Except.error e` models the Python exception `e` raised by the API
call, which the source catches and converts to
`f"Error calling Gemini API: {str(e)}"`.  Python's `not api_key` on a string
is the emptiness test. -/
def get_gemini_response (text api_key : String) (use_api : Bool)
    (live : String → Except String String) : String :=
  if !use_api || decide (api_key = "") then
    get_gemini_response_offline text
  else
    match live text with
    | Except.ok r => r
    | Except.error e => "Error calling Gemini API: " ++ e

/-- Outcome of one microphone capture + Google recognition attempt, the
oracle consumed by `record_speech` (src lines 15-35).  The first four
constructors are the outcomes the source's `try/except` distinguishes; a
device-unavailable failure (e.g. `OSError` from `sr.Microphone`) matches none
of the `except` clauses. -/
inductive CaptureOutcome where
  | recognized (text : String)
  | waitTimeout
  | unknownValue
  | requestError (detail : String)
  | deviceUnavailable (detail : String)
deriving DecidableEq, Repr

/-- `record_speech()` (src lines 15-35): maps the three caught
speech-recognition exceptions to fixed strings and returns recognized text
as-is; any other exception (device unavailable) escapes uncaught, modelled as
`Except.error`. -/
def record_speech : CaptureOutcome → Except String String
  | CaptureOutcome.recognized t => Except.ok t
  | CaptureOutcome.waitTimeout => Except.ok "Timeout: No speech detected"
  | CaptureOutcome.unknownValue => Except.ok "Could not understand the audio"
  | CaptureOutcome.requestError e =>
      Except.ok ("Error with speech recognition service: " ++ e)
  | CaptureOutcome.deviceUnavailable e => Except.error e

/-- The guard of src line 179:
`if transcribed and not transcribed.startswith(("Timeout", "Could not", "Error"))`. -/
def proceedWithTurn (t : String) : Bool :=
  !(decide (t = "")) &&
    !(pyStartsWith t "Timeout" || pyStartsWith t "Could not" || pyStartsWith t "Error")

/-- `st.session_state` fields used by the app: `transcribed_text` and
`llm_response` are initialised to `""` (src lines 158-161); the `audio_file`
key is absent (`none`) until a synthesis succeeds and deleted again by
"Clear All". -/
structure SessionState where
  transcribed_text : String
  llm_response : String
  audio_file : Option String
deriving DecidableEq, Repr

/-- Session state plus the modelled environment: `files` is the set of
temporary audio files currently existing on disk (both TTS wrappers create
them with `delete=False`), `unlinks` logs every `os.unlink` call, and
`genCalls` / `synthCalls` log the texts passed to `get_gemini_response` and
to the chosen TTS function. -/
structure Env where
  session : SessionState
  files : List String
  unlinks : List String
  genCalls : List String
  synthCalls : List String
deriving DecidableEq, Repr

/-- The state right after src lines 158-161 on a fresh session. -/
def initEnv : Env := ⟨⟨"", "", none⟩, [], [], [], []⟩

/-- Oracles for one turn: the capture/recognition outcome, the live Gemini
API, and the chosen TTS backend (`text_to_speech_gtts` or
`text_to_speech_pyttsx3`), which on success materialises a fresh temporary
file and returns its name, and on a caught synthesis exception returns
`none` (src lines 77-110 both wrappers catch `Exception` and return `None`). -/
structure TurnOracles where
  capture : CaptureOutcome
  live : String → Except String String
  synth : String → Option String

/-- The "Start Recording" button handler (src lines 173-198): record and
store the transcript; if it is non-empty and does not start with `"Timeout"`,
`"Could not"` or `"Error"`, call `get_gemini_response` and store the reply,
then call the TTS backend and, only if it returned a file, store it as
`audio_file`.  No step ever unlinks a previously stored audio file.  A
device-unavailable capture failure escapes `record_speech` uncaught and
therefore escapes this handler too (`Except.error`). -/
def runTurn (o : TurnOracles) (api_key : String) (use_api : Bool) (env : Env) :
    Except String Env :=
  match record_speech o.capture with
  | Except.error e => Except.error e
  | Except.ok transcribed =>
    let env1 : Env := { env with session := { env.session with transcribed_text := transcribed } }
    if proceedWithTurn transcribed then
      let response := get_gemini_response transcribed api_key use_api o.live
      let env2 : Env := { env1 with
        session := { env1.session with llm_response := response },
        genCalls := env1.genCalls ++ [transcribed] }
      let env3 : Env := { env2 with synthCalls := env2.synthCalls ++ [response] }
      match o.synth response with
      | some f =>
          Except.ok { env3 with
            session := { env3.session with audio_file := some f },
            files := env3.files ++ [f] }
      | none => Except.ok env3
    else
      Except.ok env1

/-- The "Clear All" button handler (src lines 200-209): blank both text
fields; if the `audio_file` key is present, `os.unlink` it (exception
swallowed) and delete the key. -/
def clear_all (env : Env) : Env :=
  match env.session.audio_file with
  | some f =>
      { env with
        session := ⟨"", "", none⟩,
        files := env.files.filter (fun p => !(decide (p = f))),
        unlinks := env.unlinks ++ [f] }
  | none => { env with session := ⟨"", "", none⟩ }

/-- Engine configuration applied by `text_to_speech_pyttsx3` (src lines
96-101).  `volume` is exact rational arithmetic for the Python literal `0.8`. -/
structure Pyttsx3Config where
  voice : Option String
  rate : Nat
  volume : ℚ
deriving DecidableEq, Repr

/-- Result of a successful `text_to_speech_pyttsx3` call: the engine
configuration that was set, the text saved to file, and the temp file name. -/
structure Pyttsx3Result where
  config : Pyttsx3Config
  savedText : String
  file : String
deriving DecidableEq, Repr

/-- `text_to_speech_pyttsx3(text)` (src lines 91-110): initialise the engine,
set voice to the first available voice when any exist (`voices[0].id`), rate
to `150`, volume to `0.8`, and save the text to a fresh temp file with suffix
`'.wav'`.  `engineOk = false` models a caught engine exception, after which
the source returns `None`; `voices` and `tmpBase` are the engine's voice list
and the fresh temp-file base name supplied by the environment. -/
def text_to_speech_pyttsx3 (text : String) (engineOk : Bool) (voices : List String)
    (tmpBase : String) : Option Pyttsx3Result :=
  if engineOk then
    some { config := { voice := voices.head?, rate := 150, volume := 0.8 },
           savedText := text,
           file := tmpBase ++ ".wav" }
  else none

/-- Appending strings appends their character lists. -/
theorem data_append (a b : String) : (a ++ b).data = a.data ++ b.data := by
  cases a; cases b; rfl

/-- In offline mode (`use_api` false or empty key) `get_gemini_response` is
the deterministic placeholder, whatever the live oracle does. -/
theorem offline_select (text api_key : String) (use_api : Bool)
    (live : String → Except String String) (hoff : use_api = false ∨ api_key = "") :
    get_gemini_response text api_key use_api live = get_gemini_response_offline text := by
  rcases hoff with h | h <;> simp [get_gemini_response, h]

/-- C1: in offline mode exactly one of the four response rules fires, chosen
by case-insensitive substring search with priority greeting ("hello"/"hi") >
weather > time > default, and the reply does not depend on the live oracle:
the same input always yields the same fixed reply. -/
theorem offline_mode_rule_selection (text api_key : String) (use_api : Bool)
    (live live' : String → Except String String)
    (hoff : use_api = false ∨ api_key = "") :
    ((pyContains (pyLower text) "hello" || pyContains (pyLower text) "hi") = true →
      get_gemini_response text api_key use_api live = helloReply) ∧
    ((pyContains (pyLower text) "hello" || pyContains (pyLower text) "hi") = false →
      pyContains (pyLower text) "weather" = true →
      get_gemini_response text api_key use_api live = weatherReply) ∧
    ((pyContains (pyLower text) "hello" || pyContains (pyLower text) "hi") = false →
      pyContains (pyLower text) "weather" = false →
      pyContains (pyLower text) "time" = true →
      get_gemini_response text api_key use_api live = timeReply) ∧
    ((pyContains (pyLower text) "hello" || pyContains (pyLower text) "hi") = false →
      pyContains (pyLower text) "weather" = false →
      pyContains (pyLower text) "time" = false →
      get_gemini_response text api_key use_api live = defaultReply text) ∧
    get_gemini_response text api_key use_api live =
      get_gemini_response text api_key use_api live' := by
  rw [offline_select text api_key use_api live hoff,
    offline_select text api_key use_api live' hoff]
  refine ⟨?_, ?_, ?_, ?_, rfl⟩ <;> intros <;>
    simp_all [get_gemini_response_offline]

/-- C1 witness: "Hello there" with no credential yields the fixed greeting. -/
theorem offline_mode_rule_selection_witness :
    get_gemini_response "Hello there" "" true (fun _ => Except.ok "live") = helloReply :=
  (offline_mode_rule_selection "Hello there" "" true (fun _ => Except.ok "live")
    (fun _ => Except.ok "other") (Or.inr rfl)).1 (by decide)

/-- C2 counterexample: a turn whose capture fails with `NoSpeechDetected`
(`sr.WaitTimeoutError`) leaves the previous turn's reply and audio file in
SessionState — they are not unset/cleared as the claim states. -/
theorem failed_capture_keeps_stale_reply :
    runTurn ⟨CaptureOutcome.waitTimeout, fun _ => Except.error "x", fun _ => none⟩ "" false
        ⟨⟨"hello", helloReply, some "tmp1.mp3"⟩, ["tmp1.mp3"], [], ["hello"], [helloReply]⟩ =
      Except.ok ⟨⟨"Timeout: No speech detected", helloReply, some "tmp1.mp3"⟩, ["tmp1.mp3"],
        [], ["hello"], [helloReply]⟩ ∧
    helloReply ≠ "" ∧ (some "tmp1.mp3" : Option String) ≠ none :=
  ⟨rfl, by decide, by decide⟩

/-- C2 amended: a turn whose capture/transcription step returns a
failure-classified transcript stores that transcript and changes nothing
else: the reply and audio fields keep their previous values (they are not
cleared), and neither generation nor synthesis is invoked. -/
theorem failed_capture_short_circuits (env : Env) (o : TurnOracles) (key : String)
    (u : Bool) (t : String)
    (hcap : record_speech o.capture = Except.ok t)
    (hfail : proceedWithTurn t = false) :
    runTurn o key u env =
      Except.ok { env with session := { env.session with transcribed_text := t } } := by
  unfold runTurn
  rw [hcap]
  simp [hfail]

/-- C2 amended witness: the `NoSpeechDetected` turn from a fresh session. -/
theorem failed_capture_short_circuits_witness :
    runTurn ⟨CaptureOutcome.waitTimeout, fun _ => Except.error "x", fun _ => none⟩ "k" true
        ⟨⟨"", "", none⟩, [], [], [], []⟩ =
      Except.ok ⟨⟨"Timeout: No speech detected", "", none⟩, [], [], [], []⟩ :=
  failed_capture_short_circuits ⟨⟨"", "", none⟩, [], [], [], []⟩
    ⟨CaptureOutcome.waitTimeout, fun _ => Except.error "x", fun _ => none⟩ "k" true
    "Timeout: No speech detected" rfl (by decide)

/-- C3: a turn whose generation step fails (the live API raises) renders the
failure description as the reply text itself and still sends it to synthesis;
when the synthesis backend produces its file, the turn ends with that file as
the session's AudioAsset. -/
theorem generation_failure_spoken (env : Env) (o : TurnOracles) (key t e f : String)
    (hcap : o.capture = CaptureOutcome.recognized t)
    (hgo : proceedWithTurn t = true)
    (hkey : ¬ key = "")
    (hlive : o.live t = Except.error e)
    (hsynth : o.synth ("Error calling Gemini API: " ++ e) = some f) :
    runTurn o key true env =
      Except.ok { env with
        session := ⟨t, "Error calling Gemini API: " ++ e, some f⟩,
        files := env.files ++ [f],
        genCalls := env.genCalls ++ [t],
        synthCalls := env.synthCalls ++ ["Error calling Gemini API: " ++ e] } := by
  have hresp : get_gemini_response t key true o.live = "Error calling Gemini API: " ++ e := by
    simp [get_gemini_response, hkey, hlive]
  unfold runTurn
  rw [hcap]
  simp [record_speech, hgo, hresp, hsynth]

/-- C3 witness: a concrete quota failure is spoken. -/
theorem generation_failure_spoken_witness :
    runTurn ⟨CaptureOutcome.recognized "hello", fun _ => Except.error "quota",
        fun _ => some "t.mp3"⟩ "k" true ⟨⟨"", "", none⟩, [], [], [], []⟩ =
      Except.ok ⟨⟨"hello", "Error calling Gemini API: " ++ "quota", some "t.mp3"⟩, ["t.mp3"],
        [], ["hello"], ["Error calling Gemini API: " ++ "quota"]⟩ :=
  generation_failure_spoken ⟨⟨"", "", none⟩, [], [], [], []⟩
    ⟨CaptureOutcome.recognized "hello", fun _ => Except.error "quota", fun _ => some "t.mp3"⟩
    "k" "hello" "quota" "t.mp3" rfl (by decide) (by decide) rfl rfl

/-- C4 (code bug): two consecutive successful turns.  The second turn
replaces the session's audio file with `tmp2.mp3` but never unlinks
`tmp1.mp3` (created with `delete=False`): the old backing file still exists
and no `os.unlink` was ever issued, leaking one file per turn. -/
theorem audio_file_leak_on_new_turn :
    runTurn ⟨CaptureOutcome.recognized "hello", fun _ => Except.error "x",
        fun _ => some "tmp1.mp3"⟩ "" false initEnv =
      Except.ok ⟨⟨"hello", helloReply, some "tmp1.mp3"⟩, ["tmp1.mp3"], [], ["hello"],
        [helloReply]⟩ ∧
    runTurn ⟨CaptureOutcome.recognized "hello again", fun _ => Except.error "x",
        fun _ => some "tmp2.mp3"⟩ "" false
        ⟨⟨"hello", helloReply, some "tmp1.mp3"⟩, ["tmp1.mp3"], [], ["hello"], [helloReply]⟩ =
      Except.ok ⟨⟨"hello again", helloReply, some "tmp2.mp3"⟩, ["tmp1.mp3", "tmp2.mp3"], [],
        ["hello", "hello again"], [helloReply, helloReply]⟩ ∧
    "tmp1.mp3" ∈ (["tmp1.mp3", "tmp2.mp3"] : List String) ∧
    ([] : List String) = [] :=
  ⟨rfl, rfl, by decide, rfl⟩

/-- C5 counterexample: turn 1 succeeded fully (reply `helloReply`, audio
`tmp1.mp3`); turn 2 recognizes "what is the weather", generation succeeds but
synthesis fails, and the final observable SessionState pairs turn 2's reply
with turn 1's audio file — a reply/audio pair from two different turns. -/
theorem reply_audio_pair_mixes_turns :
    runTurn ⟨CaptureOutcome.recognized "what is the weather", fun _ => Except.error "x",
        fun _ => none⟩ "" false
        ⟨⟨"hello", helloReply, some "tmp1.mp3"⟩, ["tmp1.mp3"], [], ["hello"], [helloReply]⟩ =
      Except.ok ⟨⟨"what is the weather", weatherReply, some "tmp1.mp3"⟩, ["tmp1.mp3"], [],
        ["hello", "what is the weather"], [helloReply, weatherReply]⟩ ∧
    weatherReply ≠ helloReply :=
  ⟨rfl, by decide⟩

/-- C5 amended: SessionState is overwritten by three separate conditional
writes in the order transcript → reply → audio; when synthesis fails the
audio field keeps the previous turn's asset, so the new reply is paired with
the old audio. -/
theorem synthesis_failure_keeps_old_audio (env : Env) (o : TurnOracles) (key : String)
    (u : Bool) (t : String)
    (hcap : record_speech o.capture = Except.ok t)
    (hgo : proceedWithTurn t = true)
    (hsyn : o.synth (get_gemini_response t key u o.live) = none) :
    runTurn o key u env =
      Except.ok { env with
        session := ⟨t, get_gemini_response t key u o.live, env.session.audio_file⟩,
        genCalls := env.genCalls ++ [t],
        synthCalls := env.synthCalls ++ [get_gemini_response t key u o.live] } := by
  unfold runTurn
  rw [hcap]
  simp [hgo, hsyn]

/-- C5 amended witness: synthesis failure keeps the old audio handle. -/
theorem synthesis_failure_keeps_old_audio_witness :
    runTurn ⟨CaptureOutcome.recognized "what is the weather", fun _ => Except.ok "x",
        fun _ => none⟩ "" false ⟨⟨"a", "b", some "old.mp3"⟩, ["old.mp3"], [], [], []⟩ =
      Except.ok ⟨⟨"what is the weather", weatherReply, some "old.mp3"⟩, ["old.mp3"], [],
        ["what is the weather"], [weatherReply]⟩ :=
  synthesis_failure_keeps_old_audio ⟨⟨"a", "b", some "old.mp3"⟩, ["old.mp3"], [], [], []⟩
    ⟨CaptureOutcome.recognized "what is the weather", fun _ => Except.ok "x", fun _ => none⟩
    "" false "what is the weather" rfl (by decide) rfl

/-- C6: "Clear All" after a completed turn blanks all three SessionState
fields, removes the backing file, logs exactly one unlink of it, and a second
"Clear All" performs no further unlink (no double free). -/
theorem clear_all_resets_and_releases_once (env : Env) (f : String)
    (h : env.session.audio_file = some f) :
    (clear_all env).session = ⟨"", "", none⟩ ∧
    f ∉ (clear_all env).files ∧
    (clear_all env).unlinks = env.unlinks ++ [f] ∧
    (clear_all (clear_all env)).unlinks = (clear_all env).unlinks := by
  have h1 : clear_all env =
      { env with
        session := ⟨"", "", none⟩,
        files := env.files.filter (fun p => !(decide (p = f))),
        unlinks := env.unlinks ++ [f] } := by
    unfold clear_all
    rw [h]
  rw [h1]
  refine ⟨rfl, ?_, rfl, ?_⟩
  · simp [List.mem_filter]
  · simp [clear_all]

/-- C6 witness: clearing after a completed concrete turn. -/
theorem clear_all_resets_and_releases_once_witness :
    (clear_all ⟨⟨"hello", helloReply, some "t.mp3"⟩, ["t.mp3"], [], ["hello"], [helloReply]⟩).session =
      ⟨"", "", none⟩ ∧
    "t.mp3" ∉
      (clear_all ⟨⟨"hello", helloReply, some "t.mp3"⟩, ["t.mp3"], [], ["hello"], [helloReply]⟩).files ∧
    (clear_all ⟨⟨"hello", helloReply, some "t.mp3"⟩, ["t.mp3"], [], ["hello"], [helloReply]⟩).unlinks =
      [] ++ ["t.mp3"] ∧
    (clear_all (clear_all ⟨⟨"hello", helloReply, some "t.mp3"⟩, ["t.mp3"], [], ["hello"],
        [helloReply]⟩)).unlinks =
      (clear_all ⟨⟨"hello", helloReply, some "t.mp3"⟩, ["t.mp3"], [], ["hello"],
        [helloReply]⟩).unlinks :=
  clear_all_resets_and_releases_once
    ⟨⟨"hello", helloReply, some "t.mp3"⟩, ["t.mp3"], [], ["hello"], [helloReply]⟩ "t.mp3" rfl

/-- C7 counterexample: a device-unavailable capture failure matches none of
`record_speech`'s `except` clauses, so it is not converted to a displayable
message: it escapes capture and the whole turn handler as an uncaught fault. -/
theorem device_unavailable_escapes :
    record_speech (CaptureOutcome.deviceUnavailable "mic unavailable") =
      Except.error "mic unavailable" ∧
    runTurn ⟨CaptureOutcome.deviceUnavailable "mic unavailable", fun _ => Except.ok "r",
        fun _ => none⟩ "k" true ⟨⟨"", "", none⟩, [], [], [], []⟩ =
      Except.error "mic unavailable" :=
  ⟨rfl, rfl⟩

/-- C7 amended: the three classified speech-recognition errors are caught in
capture and converted to fixed displayable strings, and a generation failure
is caught and converted to reply text; but a device-unavailable capture
failure is not caught anywhere and propagates out of the turn driver as an
uncaught fault. -/
theorem errors_caught_except_device_unavailable (d e g key : String) (env : Env)
    (o : TurnOracles) (u : Bool)
    (hdev : o.capture = CaptureOutcome.deviceUnavailable d)
    (hkey : ¬ key = "") :
    record_speech CaptureOutcome.waitTimeout = Except.ok "Timeout: No speech detected" ∧
    record_speech CaptureOutcome.unknownValue = Except.ok "Could not understand the audio" ∧
    record_speech (CaptureOutcome.requestError e) =
      Except.ok ("Error with speech recognition service: " ++ e) ∧
    get_gemini_response g key true (fun _ => Except.error e) =
      "Error calling Gemini API: " ++ e ∧
    runTurn o key u env = Except.error d := by
  refine ⟨rfl, rfl, rfl, ?_, ?_⟩
  · simp [get_gemini_response, hkey]
  · unfold runTurn
    rw [hdev]
    rfl

/-- C7 amended witness: a concrete device failure reaches the driver. -/
theorem errors_caught_except_device_unavailable_witness :
    runTurn ⟨CaptureOutcome.deviceUnavailable "mic busy", fun _ => Except.error "z",
        fun _ => none⟩ "k" true ⟨⟨"", "", none⟩, [], [], [], []⟩ =
      Except.error "mic busy" :=
  (errors_caught_except_device_unavailable "mic busy" "boom" "hey" "k"
    ⟨⟨"", "", none⟩, [], [], [], []⟩
    ⟨CaptureOutcome.deviceUnavailable "mic busy", fun _ => Except.error "z", fun _ => none⟩
    true rfl (by decide)).2.2.2.2

/-- C8: in offline mode, an input matching none of the three keyword rules
yields the templated default reply, which embeds the exact original
(non-lowered) input text verbatim as a substring of a fixed sentence. -/
theorem default_reply_echoes_input (text key : String) (u : Bool)
    (live : String → Except String String)
    (hoff : u = false ∨ key = "")
    (h1 : pyContains (pyLower text) "hello" = false)
    (h2 : pyContains (pyLower text) "hi" = false)
    (h3 : pyContains (pyLower text) "weather" = false)
    (h4 : pyContains (pyLower text) "time" = false) :
    get_gemini_response text key u live =
      "I heard you say: '" ++ text ++
        "'. Hello, this is a sample response from Gemini AI placeholder." ∧
    text.data <:+: (get_gemini_response text key u live).data := by
  have he : get_gemini_response text key u live = defaultReply text := by
    rw [offline_select text key u live hoff]
    simp [get_gemini_response_offline, h1, h2, h3, h4]
  refine ⟨he, ?_⟩
  rw [he]
  refine ⟨"I heard you say: '".data,
    "'. Hello, this is a sample response from Gemini AI placeholder.".data, ?_⟩
  show _ = (defaultReply text).data
  unfold defaultReply
  rw [data_append, data_append]

/-- C8 witness: "Tell me a joke" is echoed verbatim. -/
theorem default_reply_echoes_input_witness :
    get_gemini_response "Tell me a joke" "" false (fun _ => Except.ok "x") =
      "I heard you say: '" ++ "Tell me a joke" ++
        "'. Hello, this is a sample response from Gemini AI placeholder." ∧
    "Tell me a joke".data <:+:
      (get_gemini_response "Tell me a joke" "" false (fun _ => Except.ok "x")).data :=
  default_reply_echoes_input "Tell me a joke" "" false (fun _ => Except.ok "x")
    (Or.inl rfl) (by decide) (by decide) (by decide) (by decide)

/-- C9: every successful local-TTS invocation configures the engine with the
first available voice, rate 150 and volume 0.8 (= 8/10 exactly), saves the
given text, and materialises a file with the uncompressed `.wav` suffix. -/
theorem pyttsx3_defaults (text : String) (voices : List String) (tmpBase : String)
    (r : Pyttsx3Result)
    (h : text_to_speech_pyttsx3 text true voices tmpBase = some r) :
    r.config.voice = voices.head? ∧ r.config.rate = 150 ∧ r.config.volume = 8 / 10 ∧
    r.savedText = text ∧ ".wav".data <:+ r.file.data := by
  have h' : r = (⟨⟨voices.head?, 150, 0.8⟩, text, tmpBase ++ ".wav"⟩ : Pyttsx3Result) := by
    simpa [text_to_speech_pyttsx3] using h.symm
  subst h'
  exact ⟨rfl, rfl, by norm_num, rfl, ⟨tmpBase.data, (data_append tmpBase ".wav").symm⟩⟩

/-- C9 witness: a concrete invocation with one installed voice. -/
theorem pyttsx3_defaults_witness :
    (⟨⟨some "voiceA", 150, 0.8⟩, "hello", "tmp3" ++ ".wav"⟩ : Pyttsx3Result).config.voice =
      (["voiceA"] : List String).head? ∧
    (⟨⟨some "voiceA", 150, 0.8⟩, "hello", "tmp3" ++ ".wav"⟩ : Pyttsx3Result).config.rate = 150 ∧
    (⟨⟨some "voiceA", 150, 0.8⟩, "hello", "tmp3" ++ ".wav"⟩ : Pyttsx3Result).config.volume =
      8 / 10 ∧
    (⟨⟨some "voiceA", 150, 0.8⟩, "hello", "tmp3" ++ ".wav"⟩ : Pyttsx3Result).savedText =
      "hello" ∧
    ".wav".data <:+
      (⟨⟨some "voiceA", 150, 0.8⟩, "hello", "tmp3" ++ ".wav"⟩ : Pyttsx3Result).file.data :=
  pyttsx3_defaults "hello" ["voiceA"] "tmp3"
    ⟨⟨some "voiceA", 150, 0.8⟩, "hello", "tmp3" ++ ".wav"⟩ rfl

/-- C10: turn failure is detected only by string prefix on the transcript: a
successfully recognized utterance whose text starts with "Timeout", "Could
not" or "Error" is treated exactly like a failed turn — the transcript is
stored but generation and synthesis are never invoked and all other state is
untouched. -/
theorem prefix_collision_treated_as_failure (env : Env) (o : TurnOracles) (key : String)
    (u : Bool) (text : String)
    (hcap : o.capture = CaptureOutcome.recognized text)
    (hpre : pyStartsWith text "Timeout" = true ∨ pyStartsWith text "Could not" = true ∨
      pyStartsWith text "Error" = true) :
    runTurn o key u env =
      Except.ok { env with session := { env.session with transcribed_text := text } } := by
  have hp : proceedWithTurn text = false := by
    unfold proceedWithTurn
    rcases hpre with h | h | h <;> simp [h]
  unfold runTurn
  rw [hcap]
  simp [record_speech, hp]

/-- C10 witness: a genuinely recognized utterance beginning with "Error". -/
theorem prefix_collision_treated_as_failure_witness :
    runTurn ⟨CaptureOutcome.recognized "Error codes are my favorite topic",
        fun _ => Except.ok "x", fun _ => some "t.mp3"⟩ "k" true
        ⟨⟨"a", "b", some "old.mp3"⟩, ["old.mp3"], [], ["g"], ["s"]⟩ =
      Except.ok ⟨⟨"Error codes are my favorite topic", "b", some "old.mp3"⟩, ["old.mp3"], [],
        ["g"], ["s"]⟩ :=
  prefix_collision_treated_as_failure
    ⟨⟨"a", "b", some "old.mp3"⟩, ["old.mp3"], [], ["g"], ["s"]⟩
    ⟨CaptureOutcome.recognized "Error codes are my favorite topic", fun _ => Except.ok "x",
      fun _ => some "t.mp3"⟩
    "k" true "Error codes are my favorite topic" rfl (Or.inr (Or.inr (by decide)))

end VoiceChat
